import Mathlib

/-!
Verification of the Jiffoo automation scripts.

Shallow embedding of the repository's five Python scripts:

* `src/encode-readme.py` — reads a README, base64-encodes its UTF-8 bytes, prints the result.
* `src/create-base64.py` — same encoding, then wraps it in a fixed GitHub-API JSON payload
  written with `json.dump(..., indent=2)`.
* `src/complete-readme-update.py` — same encoding inside a `try/except` that prints an
  error and returns `None` on failure.
* `src/docker_launcher.py` — a `run_command` helper around `subprocess.run` plus a `main`
  that runs seven docker / docker-compose steps in order.
* `src/scripts/git-commit-push.py` — a straight-line git status/add/commit/push script.

Strings printed by the scripts are modelled as `List String` (one entry per `print` call);
bytes and character codes are `Nat` (with `< 256` bounds where they are bytes); outcomes of
external commands are supplied by an oracle indexed by invocation order, and an uncaught
Python exception is modelled as process exit status 1.
-/

namespace Jiffoo

/-! ## Base64 (Python `base64.b64encode` / `base64.b64decode`), over byte lists -/

/-- Code of the `i`-th character of the standard base64 alphabet
`A-Z a-z 0-9 + /` (as used by Python's `base64.b64encode`). -/
def b64code (i : Nat) : Nat :=
  if i < 26 then 65 + i
  else if i < 52 then 97 + (i - 26)
  else if i < 62 then 48 + (i - 52)
  else if i = 62 then 43
  else 47

/-- Inverse of `b64code`: 6-bit value of an alphabet character code. -/
def b64dec (c : Nat) : Nat :=
  if 65 ≤ c ∧ c ≤ 90 then c - 65
  else if 97 ≤ c ∧ c ≤ 122 then 26 + (c - 97)
  else if 48 ≤ c ∧ c ≤ 57 then 52 + (c - 48)
  else if c = 43 then 62
  else 63

/-- Code of the padding character `=`. -/
def padCode : Nat := 61

/-- Python `base64.b64encode`: bytes to character codes, 3 input bytes per 4 output
characters, `=`-padded. -/
def b64encode : List Nat → List Nat
  | [] => []
  | [a] => [b64code (a / 4), b64code (a % 4 * 16), padCode, padCode]
  | [a, b] => [b64code (a / 4), b64code (a % 4 * 16 + b / 16), b64code (b % 16 * 4), padCode]
  | a :: b :: c :: rest =>
      b64code (a / 4) :: b64code (a % 4 * 16 + b / 16) ::
      b64code (b % 16 * 4 + c / 64) :: b64code (c % 64) :: b64encode rest

/-- Python `base64.b64decode`: character codes back to bytes, honouring `=` padding. -/
def b64decode : List Nat → List Nat
  | w :: x :: y :: z :: rest =>
      if z = padCode then
        if y = padCode then
          [b64dec w * 4 + b64dec x / 16]
        else
          [b64dec w * 4 + b64dec x / 16, b64dec x % 16 * 16 + b64dec y / 4]
      else
        (b64dec w * 4 + b64dec x / 16) :: (b64dec x % 16 * 16 + b64dec y / 4) ::
        (b64dec y % 4 * 64 + b64dec z) :: b64decode rest
  | _ => []

/-- Character codes that may appear in base64 output: the alphabet plus padding. -/
def isB64Char (c : Nat) : Bool :=
  (65 ≤ c && c ≤ 90) || (97 ≤ c && c ≤ 122) || (48 ≤ c && c ≤ 57) ||
  c == 43 || c == 47 || c == 61

/-! ## UTF-8 encoding (Python `str.encode` with encoding `utf-8`) -/

/-- UTF-8 bytes of a single Unicode code point. -/
def utf8Bytes (c : Nat) : List Nat :=
  if c < 128 then [c]
  else if c < 2048 then [192 + c / 64, 128 + c % 64]
  else if c < 65536 then [224 + c / 4096, 128 + c / 64 % 64, 128 + c % 64]
  else [240 + c / 262144, 128 + c / 4096 % 64, 128 + c / 64 % 64, 128 + c % 64]

/-- Python `content.encode('utf-8')`: the UTF-8 byte sequence of a string. -/
def encodeUtf8 (s : List Char) : List Nat :=
  (s.map (fun c => utf8Bytes c.toNat)).flatten

/-- Python `.decode('ascii')`: turn a list of (ASCII) character codes back into a string. -/
def strOfCodes (l : List Nat) : String :=
  String.mk (l.map Char.ofNat)

/-! ## Shared script-run plumbing -/

/-- Result of a Python `subprocess.run(..., capture_output=True, text=True)` call
that did start a child process (`returncode` may be negative for signals). -/
structure CmdCompleted where
  returncode : Int
  stdout : String
  stderr : String

/-- Outcome of attempting one external command: either the child ran to completion,
or spawning raised an exception (e.g. `FileNotFoundError`), carrying its message. -/
inductive CmdOutcome where
  | completed (r : CmdCompleted)
  | spawnError (msg : String)

/-- The outcome is a completed child process with exit code 0. -/
def CmdOutcome.isSuccess : CmdOutcome → Prop
  | .completed r => r.returncode = 0
  | .spawnError _ => False

instance : DecidablePred CmdOutcome.isSuccess := by
  intro o
  cases o with
  | completed r => exact inferInstanceAs (Decidable (r.returncode = 0))
  | spawnError m => exact inferInstanceAs (Decidable False)

/-- Overall observable result of one script process: exit status, lines printed
(one entry per `print` call; for an uncaught exception, the interpreter's traceback
message), and the bytes written to the script's output file, if any. -/
structure ScriptRun where
  exitCode : Nat
  output : List String
  written : Option (List Nat)

/-! ## `src/docker_launcher.py` -/

/-- Function `run_command(cmd, description)` from `docker_launcher.py`: prints a progress line,
runs the command, prints a success line plus stdout-if-nonempty, or a failure line plus
the captured stderr; an exception is caught and printed. Returns the success flag and
the lines printed. -/
def run_command (outcome : CmdOutcome) (cmd description : String) : Bool × List String :=
  let progress := "🔄 " ++ description ++ "..."
  match outcome with
  | .spawnError e =>
      (false, [progress, "❌ " ++ description ++ " 异常: " ++ e])
  | .completed r =>
      if r.returncode = 0 then
        (true, [progress, "✅ " ++ description ++ " 成功"] ++
               (if r.stdout ≠ "" then [r.stdout] else []))
      else
        (false, [progress, "❌ " ++ description ++ " 失败", "错误: " ++ r.stderr])

/-- The seven shell commands `main()` of `docker_launcher.py` passes to `run_command`,
in declaration order. -/
def dockerCmds : List String :=
  ["docker --version",
   "docker-compose --version",
   "docker-compose -f docker-compose.dev.yml down",
   "docker-compose -f docker-compose.dev.yml up -d postgres redis",
   "docker-compose -f docker-compose.dev.yml up -d backend",
   "docker-compose -f docker-compose.dev.yml up -d frontend admin",
   "docker-compose -f docker-compose.dev.yml ps"]

/-- The matching step descriptions, in declaration order. -/
def dockerDescs : List String :=
  ["检查Docker版本", "检查Docker Compose版本", "停止现有容器", "启动数据库和Redis",
   "启动后端服务", "启动前端和管理后台", "查看服务状态"]

/-- The Python expression `"=" * 50`. -/
def sep50 : String := String.mk (List.replicate 50 '=')

/-- The success-summary block printed by `main()` after all services started. -/
def dockerSummary : List String :=
  ["\n🎉 启动完成！", sep50, "🌐 服务访问地址：",
   "  🛍️  前端商城:      http://localhost:3000",
   "  ⚙️  管理后台:      http://localhost:3001",
   "  📊 后端API:       http://localhost:8001",
   "  📚 API文档:       http://localhost:8001/docs",
   "  🗄️  PostgreSQL:    localhost:5433",
   "  🔴 Redis:         localhost:6380",
   "\n💡 查看状态: docker-compose -f docker-compose.dev.yml ps",
   "💡 查看日志: docker-compose -f docker-compose.dev.yml logs -f",
   "💡 停止服务: docker-compose -f docker-compose.dev.yml down"]

/-- Function `main()` of `docker_launcher.py`. The oracle `o` gives the outcome of the `i`-th
`run_command` invocation. Result: (process exit status, printed lines, commands whose
execution was attempted, in order). `sys.exit(1)` is exit status 1; falling off the end
of `main` is exit status 0. The results of invocations 2 (`down`) and 6 (`ps`) are
not inspected by the source. -/
def dockerMain (o : Nat → CmdOutcome) : Nat × List String × List String :=
  let intro := ["🚀 启动 Jiffoo Mall Docker 开发环境", sep50]
  let r0 := run_command (o 0) "docker --version" "检查Docker版本"
  if r0.1 = false then
    (1, intro ++ r0.2 ++ ["请确保Docker已安装并运行"], dockerCmds.take 1)
  else
    let r1 := run_command (o 1) "docker-compose --version" "检查Docker Compose版本"
    if r1.1 = false then
      (1, intro ++ r0.2 ++ r1.2 ++ ["请确保Docker Compose已安装"], dockerCmds.take 2)
    else
      let r2 := run_command (o 2) "docker-compose -f docker-compose.dev.yml down" "停止现有容器"
      let r3 := run_command (o 3) "docker-compose -f docker-compose.dev.yml up -d postgres redis" "启动数据库和Redis"
      if r3.1 = false then
        (1, intro ++ r0.2 ++ r1.2 ++ r2.2 ++ r3.2, dockerCmds.take 4)
      else
        let w1 := "⏳ 等待数据库启动 (15秒)..."
        let r4 := run_command (o 4) "docker-compose -f docker-compose.dev.yml up -d backend" "启动后端服务"
        if r4.1 = false then
          (1, intro ++ r0.2 ++ r1.2 ++ r2.2 ++ r3.2 ++ [w1] ++ r4.2, dockerCmds.take 5)
        else
          let w2 := "⏳ 等待后端启动 (20秒)..."
          let r5 := run_command (o 5) "docker-compose -f docker-compose.dev.yml up -d frontend admin" "启动前端和管理后台"
          if r5.1 = false then
            (1, intro ++ r0.2 ++ r1.2 ++ r2.2 ++ r3.2 ++ [w1] ++ r4.2 ++ [w2] ++ r5.2,
             dockerCmds.take 6)
          else
            let r6 := run_command (o 6) "docker-compose -f docker-compose.dev.yml ps" "查看服务状态"
            (0, intro ++ r0.2 ++ r1.2 ++ r2.2 ++ r3.2 ++ [w1] ++ r4.2 ++ [w2] ++ r5.2 ++
                dockerSummary ++ ["\n📊 当前服务状态:"] ++ r6.2,
             dockerCmds)

/-! ## `src/scripts/git-commit-push.py` -/

/-- Python whitespace recognised by `str.strip()` (restricted to the ASCII range,
which is all that `git status --porcelain` output can contain). -/
def isPyWS (c : Char) : Bool :=
  c == ' ' || c == '\t' || c == '\n' || c == '\x0d' || c == '\x0b' || c == '\x0c'

/-- Python `str.strip()`: drop leading and trailing whitespace. -/
def pyStrip (s : String) : String :=
  String.mk (((s.toList.dropWhile isPyWS).reverse.dropWhile isPyWS).reverse)

/-- The commit message literal of `git-commit-push.py`. -/
def commitMsg : String :=
  "feat: 完成所有 4 个剩余 spec 实现\n\n新增功能:\n\n1. commercial-plugins (100%)\n   - License Service (apps/api/src/services/license/)\n   - License API routes (apps/api/src/core/admin/license-management/)\n   - PluginLicense Prisma model\n\n2. cms-plugin (100%)\n   - CMS plugin (extensions/plugins/cms/)\n   - Posts/Pages CRUD API\n   - CMS Prisma models\n\n3. i18n-plugin (100%)\n   - i18n plugin (extensions/plugins/i18n/)\n   - Languages/Translations CRUD API\n   - i18n Prisma models (I18nLanguage, I18nTranslation)\n   - RTL language support\n\n4. backup-disaster-recovery (100%)\n   - Database backup service (packages/shared/src/backup/)\n   - Retention manager\n   - Backup API routes (apps/api/src/core/admin/backup/)\n\n所有 23 个 Spec 现已 100% 完成！"

/-- The six argument vectors `git-commit-push.py` passes to `subprocess.run`,
in declaration order. -/
def gitCmds : List (List String) :=
  [["git", "status", "--porcelain"],
   ["git", "add", "-A"],
   ["git", "commit", "-m", commitMsg],
   ["git", "push", "origin", "main"],
   ["git", "push", "github", "main"],
   ["git", "log", "--oneline", "-5"]]

/-- One unchecked middle step of `git-commit-push.py`: print a section header, run the
command, print its stdout and stderr. A spawn exception is uncaught, so it aborts the
script after the header line. Returns (still-running flag, lines printed). -/
def gitStep (oc : CmdOutcome) (header : String) : Bool × List String :=
  match oc with
  | .spawnError e => (false, [header, e])
  | .completed r => (true, [header, r.stdout, r.stderr])

/-- The whole `git-commit-push.py` process. The oracle `o` gives the outcome of the
`i`-th `subprocess.run` invocation. Result: (exit status, printed lines, argument
vectors whose execution was attempted, in order). After the initial
`git status --porcelain`, the script exits 0 early when the stripped stdout is empty;
otherwise it runs add/commit/push/push/log without ever inspecting their return codes. -/
def gitScript (o : Nat → CmdOutcome) : Nat × List String × List (List String) :=
  match o 0 with
  | .spawnError e => (1, ["=== Git Status ===", e], gitCmds.take 1)
  | .completed r =>
    let head := ["=== Git Status ===",
                 if r.stdout = "" then "No changes" else r.stdout, r.stderr]
    if pyStrip r.stdout = "" then
      (0, head ++ ["\nNo changes to commit!"], gitCmds.take 1)
    else
      let s1 := gitStep (o 1) "\n=== Adding files ==="
      if s1.1 = false then (1, head ++ s1.2, gitCmds.take 2)
      else
        let s2 := gitStep (o 2) "\n=== Committing ==="
        if s2.1 = false then (1, head ++ s1.2 ++ s2.2, gitCmds.take 3)
        else
          let s3 := gitStep (o 3) "\n=== Pushing to GitLab ==="
          if s3.1 = false then (1, head ++ s1.2 ++ s2.2 ++ s3.2, gitCmds.take 4)
          else
            let s4 := gitStep (o 4) "\n=== Pushing to GitHub ==="
            if s4.1 = false then (1, head ++ s1.2 ++ s2.2 ++ s3.2 ++ s4.2, gitCmds.take 5)
            else
              match o 5 with
              | .spawnError e =>
                  (1, head ++ s1.2 ++ s2.2 ++ s3.2 ++ s4.2 ++
                      ["\n=== Recent Commits ===", e], gitCmds)
              | .completed r5 =>
                  (0, head ++ s1.2 ++ s2.2 ++ s3.2 ++ s4.2 ++
                      ["\n=== Recent Commits ===", r5.stdout], gitCmds)

/-! ## `src/encode-readme.py` -/

/-- Script `encode-readme.py`: read the README (the oracle supplies its content, or the message
of the exception raised by `open`/`read`), base64-encode its UTF-8 bytes, print the
result. An uncaught read exception aborts the interpreter with status 1. -/
def encodeReadme (readRes : Except String (List Char)) : ScriptRun :=
  match readRes with
  | .error e => { exitCode := 1, output := [e], written := none }
  | .ok content =>
      let encoded := strOfCodes (b64encode (encodeUtf8 content))
      { exitCode := 0, output := [encoded], written := none }

/-! ## `src/complete-readme-update.py` -/

/-- Function `create_base64_content()` from `complete-readme-update.py`: the whole body is inside
`try/except`; on any exception it prints `❌ Error: <e>` and returns `None`, writing
nothing. On success it prints four stat lines and a preview, writes the encoded text to
`readme-base64.txt`, and returns the encoded string. -/
def create_base64_content (readRes : Except String (List Char)) :
    Option String × List String × Option (List Nat) :=
  match readRes with
  | .error e => (none, ["❌ Error: " ++ e], none)
  | .ok content =>
      let encoded := strOfCodes (b64encode (encodeUtf8 content))
      (some encoded,
       ["✅ File read successfully",
        "📊 Original size: " ++ toString content.length ++ " characters",
        "📊 Base64 size: " ++ toString encoded.length ++ " characters",
        "📊 Lines: " ++ toString (content.count '\n' + 1),
        "📝 Content preview: " ++ String.mk (content.take 100) ++ "...",
        "📁 Base64 content saved to: readme-base64.txt"],
       some ((b64encode (encodeUtf8 content))))

/-- The `complete-readme-update.py` process: the `__main__` guard calls
`create_base64_content()` and ignores its result, so the interpreter always
exits with status 0, also when the read failed. -/
def completeReadmeUpdate (readRes : Except String (List Char)) : ScriptRun :=
  let r := create_base64_content readRes
  { exitCode := 0, output := r.2.1, written := r.2.2 }

/-! ## `src/create-base64.py` -/

/-- Lower-case hex digit code, as in Python's `\uxxxx` JSON escapes. -/
def jsonHexDigit (d : Nat) : Nat := if d < 10 then 48 + d else 87 + d

/-- Four lower-case hex digit codes of a 16-bit value. -/
def jsonHex4 (n : Nat) : List Nat :=
  [jsonHexDigit (n / 4096 % 16), jsonHexDigit (n / 256 % 16),
   jsonHexDigit (n / 16 % 16), jsonHexDigit (n % 16)]

/-- Python `json.dump` escaping (default `ensure_ascii=True`) of one code point into
ASCII output codes. -/
def jsonEscapeChar (c : Nat) : List Nat :=
  if c = 34 then [92, 34]
  else if c = 92 then [92, 92]
  else if c = 10 then [92, 110]
  else if c = 13 then [92, 114]
  else if c = 9 then [92, 116]
  else if c = 8 then [92, 98]
  else if c = 12 then [92, 102]
  else if c < 32 then 92 :: 117 :: jsonHex4 c
  else if c < 127 then [c]
  else if c < 65536 then 92 :: 117 :: jsonHex4 c
  else
    (92 :: 117 :: jsonHex4 (55296 + (c - 65536) / 1024)) ++
    (92 :: 117 :: jsonHex4 (56320 + (c - 65536) % 1024))

/-- A JSON string literal (quotes plus escaped body), as ASCII codes. -/
def jsonStr (s : String) : List Nat :=
  [34] ++ (s.toList.map (fun c => jsonEscapeChar c.toNat)).flatten ++ [34]

/-- ASCII codes of a literal string. -/
def strBytes (s : String) : List Nat := s.toList.map Char.toNat

/-- The fixed `message` constant of the payload in `create-base64.py`. -/
def payloadMessage : String :=
  "docs: complete README update - remove Chinese content for international open source project\n\n- Remove all Chinese documentation sections\n- Keep only English content for global accessibility\n- Ensure complete and consistent documentation\n- Prepare for international open source community"

/-- The fixed `sha` constant of the payload in `create-base64.py`. -/
def payloadSha : String := "ff8d53bc9aa277f697c211fea1d59dd7a237ad43"

/-- The bytes `json.dump(payload, f, indent=2)` writes to `github-payload.json` for a
given README content: a three-key object with the fixed message, the base64-encoded
content, and the fixed sha, indented by two spaces. -/
def renderPayload (content : List Char) : List Nat :=
  let encoded := strOfCodes (b64encode (encodeUtf8 content))
  strBytes ("\x7b\n  ") ++ jsonStr ("message") ++ strBytes (": ") ++ jsonStr payloadMessage ++
  strBytes (",\n  ") ++ jsonStr ("content") ++ strBytes (": ") ++ jsonStr encoded ++
  strBytes (",\n  ") ++ jsonStr ("sha") ++ strBytes (": ") ++ jsonStr payloadSha ++
  strBytes ("\n\x7d")

/-- The `create-base64.py` process: read the README (no exception handler, so a read
failure aborts the interpreter with status 1 and writes nothing), build the payload,
write it to `github-payload.json`, print four status lines. -/
def createBase64Script (readRes : Except String (List Char)) : ScriptRun :=
  match readRes with
  | .error e => { exitCode := 1, output := [e], written := none }
  | .ok content =>
      let encoded := strOfCodes (b64encode (encodeUtf8 content))
      { exitCode := 0,
        output := ["✅ GitHub API payload created successfully!",
                   "📊 Content size: " ++ toString content.length ++ " characters",
                   "📊 Base64 size: " ++ toString encoded.length ++ " characters",
                   "📁 Payload saved to: github-payload.json"],
        written := some (renderPayload content) }

end Jiffoo

namespace Jiffoo

/-! ## Base64 lemmas -/

theorem b64dec_b64code : ∀ i, i < 64 → b64dec (b64code i) = i := by decide

theorem b64code_ne_pad : ∀ i, i < 64 → b64code i ≠ padCode := by decide

theorem b64code_isB64Char (i : Nat) : isB64Char (b64code i) = true := by
  unfold b64code isB64Char
  split_ifs <;> simp <;> omega

theorem isB64Char_pad : isB64Char padCode = true := by decide

/-- Decoding inverts encoding on any list of bytes. -/
theorem b64_roundtrip (l : List Nat) (h : ∀ b ∈ l, b < 256) :
    b64decode (b64encode l) = l := by
  induction l using b64encode.induct with
  | case1 => rfl
  | case2 a =>
    have ha : a < 256 := h a (by simp)
    simp only [b64encode]
    rw [b64decode, if_pos rfl, if_pos rfl,
        b64dec_b64code (a / 4) (by omega), b64dec_b64code (a % 4 * 16) (by omega)]
    simp only [List.cons.injEq, and_true]
    omega
  | case3 a b =>
    have ha : a < 256 := h a (by simp)
    have hb : b < 256 := h b (by simp)
    simp only [b64encode]
    rw [b64decode, if_pos rfl, if_neg (b64code_ne_pad (b % 16 * 4) (by omega)),
        b64dec_b64code (a / 4) (by omega), b64dec_b64code (a % 4 * 16 + b / 16) (by omega),
        b64dec_b64code (b % 16 * 4) (by omega)]
    simp only [List.cons.injEq, and_true]
    exact ⟨by omega, by omega⟩
  | case4 a b c rest ih =>
    have ha : a < 256 := h a (by simp)
    have hb : b < 256 := h b (by simp)
    have hc : c < 256 := h c (by simp)
    simp only [b64encode]
    rw [b64decode, if_neg (b64code_ne_pad (c % 64) (by omega)),
        b64dec_b64code (a / 4) (by omega), b64dec_b64code (a % 4 * 16 + b / 16) (by omega),
        b64dec_b64code (b % 16 * 4 + c / 64) (by omega), b64dec_b64code (c % 64) (by omega),
        ih (fun x hx => h x (by simp [hx]))]
    simp only [List.cons.injEq, and_true]
    exact ⟨by omega, by omega, by omega⟩

/-- Every code in base64 output is in the alphabet (or padding), and the output
length is a multiple of 4. -/
theorem b64encode_wellformed (l : List Nat) :
    (∀ c ∈ b64encode l, isB64Char c = true) ∧ (b64encode l).length % 4 = 0 := by
  induction l using b64encode.induct with
  | case1 => simp [b64encode]
  | case2 a =>
    refine ⟨?_, by simp [b64encode]⟩
    intro c hc
    simp only [b64encode, List.mem_cons, List.not_mem_nil, or_false] at hc
    rcases hc with rfl | rfl | rfl | rfl
    · exact b64code_isB64Char _
    · exact b64code_isB64Char _
    · exact isB64Char_pad
    · exact isB64Char_pad
  | case3 a b =>
    refine ⟨?_, by simp [b64encode]⟩
    intro c hc
    simp only [b64encode, List.mem_cons, List.not_mem_nil, or_false] at hc
    rcases hc with rfl | rfl | rfl | rfl
    · exact b64code_isB64Char _
    · exact b64code_isB64Char _
    · exact b64code_isB64Char _
    · exact isB64Char_pad
  | case4 a b c rest ih =>
    refine ⟨?_, ?_⟩
    · intro x hx
      simp only [b64encode, List.mem_cons] at hx
      rcases hx with rfl | rfl | rfl | rfl | hx
      · exact b64code_isB64Char _
      · exact b64code_isB64Char _
      · exact b64code_isB64Char _
      · exact b64code_isB64Char _
      · exact ih.1 x hx
    · have := ih.2
      simp only [b64encode, List.length_cons]
      omega

/-! ## UTF-8 lemmas -/

theorem utf8Bytes_lt (c : Nat) (hc : c < 1114112) : ∀ b ∈ utf8Bytes c, b < 256 := by
  unfold utf8Bytes
  split_ifs <;> (intro b hb; simp at hb) <;> omega

theorem char_toNat_lt (c : Char) : c.toNat < 1114112 := by
  rcases c.valid with h | ⟨h1, h2⟩
  · have : c.val.toNat < 55296 := h
    simpa [Char.toNat] using by omega
  · have : c.val.toNat < 1114112 := h2
    simpa [Char.toNat] using this

theorem encodeUtf8_lt (s : List Char) : ∀ b ∈ encodeUtf8 s, b < 256 := by
  intro b hb
  simp only [encodeUtf8, List.mem_flatten, List.mem_map] at hb
  obtain ⟨l, ⟨c, hc, rfl⟩, hbl⟩ := hb
  exact utf8Bytes_lt c.toNat (char_toNat_lt c) b hbl

/-! ## `run_command` lemmas -/

theorem run_command_fst_true {oc : CmdOutcome} (h : oc.isSuccess) (cmd desc : String) :
    (run_command oc cmd desc).1 = true := by
  cases oc with
  | completed r =>
      have h0 : r.returncode = 0 := h
      simp [run_command, h0]
  | spawnError m => exact absurd h (by simp [CmdOutcome.isSuccess])

theorem run_command_fst_false {oc : CmdOutcome} (h : ¬ oc.isSuccess) (cmd desc : String) :
    (run_command oc cmd desc).1 = false := by
  cases oc with
  | completed r =>
      have h0 : r.returncode ≠ 0 := h
      simp [run_command, h0]
  | spawnError m => simp [run_command]

theorem run_command_progress_mem (oc : CmdOutcome) (cmd desc : String) :
    ("🔄 " ++ desc ++ "...") ∈ (run_command oc cmd desc).2 := by
  cases oc with
  | completed r => by_cases h : r.returncode = 0 <;> simp [run_command, h]
  | spawnError m => simp [run_command]

theorem run_command_progress_sublist (oc : CmdOutcome) (cmd desc : String) :
    List.Sublist ["🔄 " ++ desc ++ "..."] (run_command oc cmd desc).2 := by
  cases oc with
  | completed r =>
      by_cases h : r.returncode = 0 <;>
        simp [run_command, h, List.singleton_sublist]
  | spawnError m => simp [run_command, List.singleton_sublist]

theorem pyStrip_eq_empty {s : String} (h : s.toList.all isPyWS = true) : pyStrip s = "" := by
  unfold pyStrip
  have h1 : s.toList.dropWhile isPyWS = [] :=
    List.dropWhile_eq_nil_iff.mpr (fun x hx => List.all_eq_true.mp h x hx)
  rw [h1]
  rfl

theorem progress_ne_empty (desc : String) : "🔄 " ++ desc ++ "..." ≠ "" := by
  intro h
  have hl := congrArg String.length h
  simp [String.length_append] at hl
  exact absurd hl.2 (by decide)

theorem success_line_ne_empty (desc : String) : "✅ " ++ desc ++ " 成功" ≠ "" := by
  intro h
  have hl := congrArg String.length h
  simp [String.length_append] at hl
  exact absurd hl.2 (by decide)

/-! ## Claim theorems -/

/-- Claim C2: for every input string, base64-encoding its UTF-8 bytes (as
`encode-readme.py` and `create_base64_content` do with
`base64.b64encode(content.encode('utf-8'))`) and decoding the result yields the
original bytes byte-for-byte. The string is universally quantified, so the empty
string and strings with multi-byte (non-ASCII) characters are included. -/
theorem base64_utf8_roundtrip (s : List Char) :
    b64decode (b64encode (encodeUtf8 s)) = encodeUtf8 s :=
  b64_roundtrip (encodeUtf8 s) (encodeUtf8_lt s)

/-- Claim C8: when the input file content is exactly `abc`, the transport-encoding
step produces the fixed known base64 encoding `YWJj` of the three bytes
`[97, 98, 99]`, and decoding that encoding reproduces the bytes of `abc`. -/
theorem abc_encodes_to_YWJj :
    encodeUtf8 ['a', 'b', 'c'] = [97, 98, 99] ∧
    b64encode [97, 98, 99] = [89, 87, 74, 106] ∧
    strOfCodes (b64encode (encodeUtf8 ['a', 'b', 'c'])) = "YWJj" ∧
    b64decode (b64encode (encodeUtf8 ['a', 'b', 'c'])) = [97, 98, 99] :=
  ⟨by decide, by decide, rfl, by decide⟩

/-- Claim C10: the base64 output of the encoding scripts consists only of characters
of the base64 alphabet (`A-Z`, `a-z`, `0-9`, `+`, `/`) and the padding `=`, and its
length is a multiple of 4, for every input string. -/
theorem base64_output_wellformed (s : List Char) :
    (∀ c ∈ b64encode (encodeUtf8 s), isB64Char c = true) ∧
    (b64encode (encodeUtf8 s)).length % 4 = 0 :=
  b64encode_wellformed (encodeUtf8 s)

/-- Witness for `base64_output_wellformed` at the concrete input `hi`: the first
output code 97 (`a`) is in the alphabet and the output length is a multiple of 4. -/
theorem base64_output_wellformed_witness :
    isB64Char 97 = true ∧ (b64encode (encodeUtf8 ['h', 'i'])).length % 4 = 0 :=
  ⟨(base64_output_wellformed ['h', 'i']).1 97 (by decide),
   (base64_output_wellformed ['h', 'i']).2⟩

/-- Claim C4: in `run_command` of `docker_launcher.py`, a completed child with a
non-zero exit code and an exception raised while spawning are treated identically:
both produce the failure signal `False`. The embedding of `run_command` is a total
function, so no exception propagates out of it; the final conjunct states that the
runner reports success exactly for a completed child with exit code 0. -/
theorem run_command_failure_unified (cmd desc e : String) (r : CmdCompleted)
    (h : r.returncode ≠ 0) :
    (run_command (.completed r) cmd desc).1 = false ∧
    (run_command (.spawnError e) cmd desc).1 = false ∧
    (∀ oc : CmdOutcome, (run_command oc cmd desc).1 = true ↔ oc.isSuccess) := by
  refine ⟨by simp [run_command, h], by simp [run_command], ?_⟩
  intro oc
  cases oc with
  | completed r' =>
      by_cases h0 : r'.returncode = 0 <;>
        simp [run_command, CmdOutcome.isSuccess, h0]
  | spawnError m => simp [run_command, CmdOutcome.isSuccess]

/-- Witness for `run_command_failure_unified` at a failing command and a spawn
error with exit code 127. -/
theorem run_command_failure_unified_witness :
    (run_command (.completed ⟨127, "", "sh: not found"⟩) "definitely-not-a-cmd" "测试").1 = false ∧
    (run_command (.spawnError "No such file or directory") "definitely-not-a-cmd" "测试").1 = false ∧
    (∀ oc : CmdOutcome,
      (run_command oc ("definitely-not-a-cmd") ("测试")).1 = true ↔ oc.isSuccess) :=
  run_command_failure_unified ("definitely-not-a-cmd") ("测试") ("No such file or directory")
    ⟨127, "", "sh: not found"⟩ (by decide)

/-- Claim C7: `run_command` prints the progress line `🔄 <description>...` first
(before any result line), and for a completed command: on success the captured
stdout is printed if and only if it is non-empty, and on failure the line
`错误: <stderr>` carrying the captured stderr is printed. -/
theorem run_command_reporting (cmd desc : String) (oc : CmdOutcome) :
    (run_command oc cmd desc).2.head? = some ("🔄 " ++ desc ++ "...") ∧
    (∀ r, oc = .completed r →
      (r.returncode = 0 →
        (r.stdout ∈ (run_command oc cmd desc).2 ↔ r.stdout ≠ "")) ∧
      (r.returncode ≠ 0 →
        ("错误: " ++ r.stderr) ∈ (run_command oc cmd desc).2)) := by
  constructor
  · cases oc with
    | completed r => by_cases h : r.returncode = 0 <;> simp [run_command, h]
    | spawnError m => simp [run_command]
  · rintro r rfl
    constructor
    · intro h0
      constructor
      · intro hmem hempty
        rw [hempty] at hmem
        simp [run_command, h0, hempty] at hmem
        rcases hmem with h' | h'
        · exact progress_ne_empty desc h'.symm
        · exact success_line_ne_empty desc h'.symm
      · intro hne
        simp [run_command, h0, hne]
    · intro h0
      simp [run_command, h0]

/-- Witness for `run_command_reporting` at a successful command with non-empty
stdout. -/
theorem run_command_reporting_witness :
    (run_command (.completed ⟨0, "ok", ""⟩) "docker --version" "检查Docker版本").2.head? =
      some ("🔄 " ++ "检查Docker版本" ++ "...") ∧
    ("ok" ∈ (run_command (.completed ⟨0, "ok", ""⟩) "docker --version" "检查Docker版本").2 ↔
      ("ok" : String) ≠ "") :=
  ⟨(run_command_reporting ("docker --version") ("检查Docker版本") (.completed ⟨0, "ok", ""⟩)).1,
   ((run_command_reporting ("docker --version") ("检查Docker版本")
      (.completed ⟨0, "ok", ""⟩)).2 ⟨0, "ok", ""⟩ rfl).1 rfl⟩

/-- Claim C3 counterexample: when the input file is missing,
`complete-readme-update.py` prints a descriptive error and writes no output file,
but its process exits with status 0, not non-zero: `create_base64_content` catches
the exception and returns `None`, and the `__main__` guard ignores that result. -/
theorem completeReadmeUpdate_exit_zero_on_read_failure :
    (completeReadmeUpdate
      (.error "[Errno 2] No such file or directory: ../Jiffoo/README.md")).written = none ∧
    (completeReadmeUpdate
      (.error "[Errno 2] No such file or directory: ../Jiffoo/README.md")).output =
      ["❌ Error: [Errno 2] No such file or directory: ../Jiffoo/README.md"] ∧
    (completeReadmeUpdate
      (.error "[Errno 2] No such file or directory: ../Jiffoo/README.md")).exitCode = 0 :=
  ⟨rfl, rfl, rfl⟩

/-- Claim C3 amended: on a read failure every transform script surfaces the error
immediately and writes no partial output; `create-base64.py` and
`encode-readme.py` (no exception handler) abort with the interpreter's non-zero
status, while `complete-readme-update.py` prints `❌ Error: <e>` but exits 0. -/
theorem transform_read_failure (e : String) :
    (createBase64Script (.error e)).written = none ∧
    (createBase64Script (.error e)).output = [e] ∧
    (createBase64Script (.error e)).exitCode = 1 ∧
    (encodeReadme (.error e)).written = none ∧
    (encodeReadme (.error e)).exitCode = 1 ∧
    (completeReadmeUpdate (.error e)).written = none ∧
    (completeReadmeUpdate (.error e)).output = ["❌ Error: " ++ e] ∧
    (completeReadmeUpdate (.error e)).exitCode = 0 :=
  ⟨rfl, rfl, rfl, rfl, rfl, rfl, rfl, rfl⟩

/-- Claim C6: the structured-payload transform of `create-base64.py` is
deterministic: two runs whose input file reads yield identical content produce
byte-identical serialized payloads in `github-payload.json` — the payload is the
fixed function `renderPayload` of the content alone (the `message` and `sha`
metadata are compiled-in constants). -/
theorem createBase64_deterministic (c1 c2 : List Char) (h : c1 = c2) :
    (createBase64Script (.ok c1)).written = (createBase64Script (.ok c2)).written ∧
    (createBase64Script (.ok c1)).written = some (renderPayload c1) := by
  subst h
  exact ⟨rfl, rfl⟩

/-- Witness for `createBase64_deterministic` at the one-character content `a`. -/
theorem createBase64_deterministic_witness :
    (createBase64Script (.ok ['a'])).written = (createBase64Script (.ok ['a'])).written ∧
    (createBase64Script (.ok ['a'])).written = some (renderPayload ['a']) :=
  createBase64_deterministic ['a'] ['a'] rfl

/-- Claim C9: if `git status --porcelain` completes with empty or whitespace-only
stdout, `git-commit-push.py` prints the no-changes message and exits with status 0,
attempting none of the subsequent add/commit/push/log commands. -/
theorem gitScript_no_changes (o : Nat → CmdOutcome) (r : CmdCompleted)
    (h0 : o 0 = CmdOutcome.completed r) (hws : r.stdout.toList.all isPyWS = true) :
    (gitScript o).1 = 0 ∧
    (gitScript o).2.2 = [["git", "status", "--porcelain"]] ∧
    "\nNo changes to commit!" ∈ (gitScript o).2.1 := by
  have hs : pyStrip r.stdout = "" := pyStrip_eq_empty hws
  refine ⟨?_, ?_, ?_⟩ <;> simp [gitScript, h0, hs, gitCmds]

/-- Witness for `gitScript_no_changes`: a status run whose stdout is a space and a
newline. -/
theorem gitScript_no_changes_witness :
    (gitScript (fun _ => CmdOutcome.completed ⟨0, " \n", ""⟩)).1 = 0 ∧
    (gitScript (fun _ => CmdOutcome.completed ⟨0, " \n", ""⟩)).2.2 =
      [["git", "status", "--porcelain"]] ∧
    "\nNo changes to commit!" ∈ (gitScript (fun _ => CmdOutcome.completed ⟨0, " \n", ""⟩)).2.1 :=
  gitScript_no_changes (fun _ => CmdOutcome.completed ⟨0, " \n", ""⟩) ⟨0, " \n", ""⟩ rfl
    (by decide)

/-- In `git-commit-push.py`, no completed command's exit code is ever inspected after
the initial status check: whenever every invocation completes (with any exit codes),
the script attempts either only the status command (no-changes path) or all six
commands. -/
theorem gitScript_all_completed (o : Nat → CmdOutcome)
    (hc : ∀ i, ∃ r, o i = CmdOutcome.completed r) :
    (gitScript o).2.2 = gitCmds.take 1 ∨ (gitScript o).2.2 = gitCmds := by
  obtain ⟨r0, h0⟩ := hc 0
  obtain ⟨r1, h1⟩ := hc 1
  obtain ⟨r2, h2⟩ := hc 2
  obtain ⟨r3, h3⟩ := hc 3
  obtain ⟨r4, h4⟩ := hc 4
  obtain ⟨r5, h5⟩ := hc 5
  by_cases hs : pyStrip r0.stdout = ""
  · left
    simp [gitScript, h0, hs]
  · right
    simp [gitScript, h0, h1, h2, h3, h4, h5, hs, gitStep]

/-- The oracle of the C1 counterexample: the third invocation (the
`docker-compose ... down` step) fails with exit code 1; everything else
succeeds. -/
def c1Oracle : Nat → CmdOutcome := fun i =>
  if i = 2 then .completed ⟨1, "", "docker daemon not running"⟩
  else .completed ⟨0, "", ""⟩

/-- Claim C1 counterexample: in `docker_launcher.py`, when the first failing step is
the third one (`docker-compose -f docker-compose.dev.yml down`, whose result line 53
of the source ignores), the sequence does **not** halt: all seven commands are
attempted and the process exits with status 0, contradicting the claimed uniform
fail-fast with non-zero exit. -/
theorem dockerMain_not_failfast :
    (c1Oracle 0).isSuccess ∧ (c1Oracle 1).isSuccess ∧ ¬ (c1Oracle 2).isSuccess ∧
    (dockerMain c1Oracle).1 = 0 ∧ (dockerMain c1Oracle).2.2 = dockerCmds :=
  ⟨rfl, rfl, by decide, rfl, rfl⟩

/-- Claim C1 amended: fail-fast holds exactly for the steps whose results the scripts
inspect. In `docker_launcher.py` these are steps 0, 1, 3, 4, 5 (the two version
checks and the three `up` steps): if such a step is the first failure, the process
exits with status 1 and no later command is attempted. The unchecked steps (the
`down` step and the final `ps`) and the git script's add/commit/push/log steps do
not halt the sequence on failure. -/
theorem dockerMain_failfast_checked (o : Nat → CmdOutcome) (k : Nat)
    (hk : k = 0 ∨ k = 1 ∨ k = 3 ∨ k = 4 ∨ k = 5)
    (hprev : ∀ j, j < k → (o j).isSuccess)
    (hfail : ¬ (o k).isSuccess) :
    ((dockerMain o).1 = 1 ∧ (dockerMain o).2.2 = dockerCmds.take (k + 1)) ∧
    (∀ o' : Nat → CmdOutcome, (∀ i, ∃ r, o' i = CmdOutcome.completed r) →
      (gitScript o').2.2 = gitCmds.take 1 ∨ (gitScript o').2.2 = gitCmds) := by
  refine ⟨?_, fun o' hc => gitScript_all_completed o' hc⟩
  rcases hk with rfl | rfl | rfl | rfl | rfl
  · simp only [dockerMain, run_command_fst_false hfail]
    exact ⟨rfl, rfl⟩
  · have t0 := run_command_fst_true (hprev 0 (by omega)) "docker --version" "检查Docker版本"
    simp only [dockerMain, t0, run_command_fst_false hfail]
    exact ⟨rfl, rfl⟩
  · have t0 := run_command_fst_true (hprev 0 (by omega)) "docker --version" "检查Docker版本"
    have t1 := run_command_fst_true (hprev 1 (by omega)) "docker-compose --version" "检查Docker Compose版本"
    simp only [dockerMain, t0, t1, run_command_fst_false hfail]
    exact ⟨rfl, rfl⟩
  · have t0 := run_command_fst_true (hprev 0 (by omega)) "docker --version" "检查Docker版本"
    have t1 := run_command_fst_true (hprev 1 (by omega)) "docker-compose --version" "检查Docker Compose版本"
    have t3 := run_command_fst_true (hprev 3 (by omega)) "docker-compose -f docker-compose.dev.yml up -d postgres redis" "启动数据库和Redis"
    simp only [dockerMain, t0, t1, t3, run_command_fst_false hfail]
    exact ⟨rfl, rfl⟩
  · have t0 := run_command_fst_true (hprev 0 (by omega)) "docker --version" "检查Docker版本"
    have t1 := run_command_fst_true (hprev 1 (by omega)) "docker-compose --version" "检查Docker Compose版本"
    have t3 := run_command_fst_true (hprev 3 (by omega)) "docker-compose -f docker-compose.dev.yml up -d postgres redis" "启动数据库和Redis"
    have t4 := run_command_fst_true (hprev 4 (by omega)) "docker-compose -f docker-compose.dev.yml up -d backend" "启动后端服务"
    simp only [dockerMain, t0, t1, t3, t4, run_command_fst_false hfail]
    exact ⟨rfl, rfl⟩

/-- The oracle of the C1-amended witness: the fourth invocation (the checked
`up -d postgres redis` step) fails; everything before succeeds. -/
def c1AmendedOracle : Nat → CmdOutcome := fun i =>
  if i = 3 then .completed ⟨1, "", "network error"⟩
  else .completed ⟨0, "", ""⟩

/-- Witness for `dockerMain_failfast_checked` with the first failure at checked
step 3. -/
theorem dockerMain_failfast_checked_witness :
    (((dockerMain c1AmendedOracle).1 = 1 ∧
      (dockerMain c1AmendedOracle).2.2 = dockerCmds.take (3 + 1)) ∧
     (∀ o' : Nat → CmdOutcome, (∀ i, ∃ r, o' i = CmdOutcome.completed r) →
       (gitScript o').2.2 = gitCmds.take 1 ∨ (gitScript o').2.2 = gitCmds)) :=
  dockerMain_failfast_checked c1AmendedOracle 3 (by decide)
    (fun j hj => by interval_cases j <;> exact rfl) (by decide)

/-- Claim C5: when all seven steps of `docker_launcher.py` succeed, the process exits
with status 0, the final summary (`🎉 启动完成！`) is printed, and the seven step
descriptions appear in the output as progress lines in declaration order. -/
theorem dockerMain_all_success (o : Nat → CmdOutcome) (h : ∀ i, i < 7 → (o i).isSuccess) :
    (dockerMain o).1 = 0 ∧
    "\n🎉 启动完成！" ∈ (dockerMain o).2.1 ∧
    List.Sublist (dockerDescs.map (fun d => "🔄 " ++ d ++ "...")) (dockerMain o).2.1 := by
  have t0 := run_command_fst_true (h 0 (by omega)) "docker --version" "检查Docker版本"
  have t1 := run_command_fst_true (h 1 (by omega)) "docker-compose --version" "检查Docker Compose版本"
  have t3 := run_command_fst_true (h 3 (by omega)) "docker-compose -f docker-compose.dev.yml up -d postgres redis" "启动数据库和Redis"
  have t4 := run_command_fst_true (h 4 (by omega)) "docker-compose -f docker-compose.dev.yml up -d backend" "启动后端服务"
  have t5 := run_command_fst_true (h 5 (by omega)) "docker-compose -f docker-compose.dev.yml up -d frontend admin" "启动前端和管理后台"
  have hmain : dockerMain o =
      (0, ["🚀 启动 Jiffoo Mall Docker 开发环境", sep50] ++
          (run_command (o 0) "docker --version" "检查Docker版本").2 ++
          (run_command (o 1) "docker-compose --version" "检查Docker Compose版本").2 ++
          (run_command (o 2) "docker-compose -f docker-compose.dev.yml down" "停止现有容器").2 ++
          (run_command (o 3) "docker-compose -f docker-compose.dev.yml up -d postgres redis" "启动数据库和Redis").2 ++
          ["⏳ 等待数据库启动 (15秒)..."] ++
          (run_command (o 4) "docker-compose -f docker-compose.dev.yml up -d backend" "启动后端服务").2 ++
          ["⏳ 等待后端启动 (20秒)..."] ++
          (run_command (o 5) "docker-compose -f docker-compose.dev.yml up -d frontend admin" "启动前端和管理后台").2 ++
          dockerSummary ++ ["\n📊 当前服务状态:"] ++
          (run_command (o 6) "docker-compose -f docker-compose.dev.yml ps" "查看服务状态").2,
       dockerCmds) := by
    simp only [dockerMain, t0, t1, t3, t4, t5]
    rfl
  rw [hmain]
  refine ⟨rfl, ?_, ?_⟩
  · simp [dockerSummary]
  · simp only [dockerDescs, List.map_cons, List.map_nil, List.append_assoc,
      List.cons_append, List.nil_append]
    exact List.Sublist.cons _ (List.Sublist.cons _
      ((run_command_progress_sublist (o 0) _ _).append
      ((run_command_progress_sublist (o 1) _ _).append
      ((run_command_progress_sublist (o 2) _ _).append
      ((run_command_progress_sublist (o 3) _ _).append
      (List.Sublist.cons _
      ((run_command_progress_sublist (o 4) _ _).append
      (List.Sublist.cons _
      ((run_command_progress_sublist (o 5) _ _).append
      (((run_command_progress_sublist (o 6) _ _).trans
          (List.sublist_append_right ["\n📊 当前服务状态:"] _)).trans
          (List.sublist_append_right dockerSummary _)))))))))))

/-- Witness for `dockerMain_all_success`: every invocation completes with exit
code 0. -/
theorem dockerMain_all_success_witness :
    (dockerMain (fun _ => CmdOutcome.completed ⟨0, "", ""⟩)).1 = 0 ∧
    "\n🎉 启动完成！" ∈ (dockerMain (fun _ => CmdOutcome.completed ⟨0, "", ""⟩)).2.1 ∧
    List.Sublist (dockerDescs.map (fun d => "🔄 " ++ d ++ "..."))
      (dockerMain (fun _ => CmdOutcome.completed ⟨0, "", ""⟩)).2.1 :=
  dockerMain_all_success (fun _ => CmdOutcome.completed ⟨0, "", ""⟩) (fun _ _ => rfl)

end Jiffoo
